import Mathlib

/-!
Verification development for the `YandexGeocoder` service
(`src/Test_Task_LD_Flask/src/yandex_geocoder.py`).

The remote HTTP capability is modelled as a function from the API key and
the `geocode` query string to the response the server returns.  A response
carries the HTTP status code, the raw body (as rendered into the
`UnexpectedResponse` message), and, for responses whose body parses, the
JSON `response` substructure restricted to the schema the client consumes
(`GeoObjectCollection.featureMember[..].GeoObject.Point.pos` and
`...metaDataProperty.GeocoderMetaData.text`).

Python exceptions are modelled by the inductive `PyErr`.  The three
exception classes imported from `src.exceptions` (`InvalidKey`,
`NothingFound`, `UnexpectedResponse`) become the first three constructors;
the remaining constructors stand for the built-in Python exceptions that
the body of `yandex_geocoder.py` can raise (tuple-unpacking `ValueError`,
`decimal.InvalidOperation`, and the `TypeError` from `"MKAD" in None`).

`Decimal` values are modelled by `Dec` (sign, coefficient, exponent),
mirroring CPython's internal representation, with `parseDec` for the
`Decimal(string)` constructor and `Dec.str` for `str(decimal)`.
-/

/-- One `featureMember` element's `GeoObject.Point` node: `pos` is the
"longitude latitude" string. -/
structure PointT where
  pos : String
deriving DecidableEq, Repr

/-- The `GeocoderMetaData` node: `text` is the canonical address string. -/
structure GeocoderMetaDataT where
  text : String
deriving DecidableEq, Repr

/-- The `metaDataProperty` node. -/
structure MetaDataPropertyT where
  GeocoderMetaData : GeocoderMetaDataT
deriving DecidableEq, Repr

/-- The `GeoObject` node of one feature. -/
structure GeoObjectT where
  Point : PointT
  metaDataProperty : MetaDataPropertyT
deriving DecidableEq, Repr

/-- One element of the `featureMember` array. -/
structure FeatureMemberT where
  GeoObject : GeoObjectT
deriving DecidableEq, Repr

/-- The `GeoObjectCollection` node. -/
structure GeoObjectCollectionT where
  featureMember : List FeatureMemberT
deriving DecidableEq, Repr

/-- The `response` substructure of a 200 body, restricted to the schema
the client reads. -/
structure GeocoderResponseT where
  GeoObjectCollection : GeoObjectCollectionT
deriving DecidableEq, Repr

/-- One HTTP response from the geocoding endpoint.  `content` is the raw
body as it is rendered into the `UnexpectedResponse` message; `response`
is the parsed `response` substructure, consulted only when
`status_code = 200`. -/
structure ApiResponse where
  status_code : Nat
  content : String
  response : GeocoderResponseT
deriving DecidableEq, Repr

/-- The remote capability: API key and `geocode` query string to response. -/
def Net : Type := String → String → ApiResponse

/-- Python exceptions that `yandex_geocoder.py` can raise.  The first
three are the named classes from `src.exceptions`; the last three are
built-in Python exceptions escaping from parsing. -/
inductive PyErr where
  | invalidKey : PyErr
  | nothingFound : String → PyErr
  | unexpectedResponse : String → PyErr
  | valueError : PyErr
  | invalidOperation : PyErr
  | typeError : PyErr
deriving DecidableEq, Repr

/-- Whether an exception is one of the three named error kinds of the
service (`InvalidKey`, `NothingFound`, `UnexpectedResponse`). -/
def PyErr.isNamed : PyErr → Bool
  | .invalidKey => true
  | .nothingFound _ => true
  | .unexpectedResponse _ => true
  | _ => false

/-- An operation outcome that is either a success or one of the three
named error kinds. -/
def okOrNamed {α : Type} : Except PyErr α → Bool
  | .ok _ => true
  | .error e => e.isNamed

instance {ε α : Type} [DecidableEq ε] [DecidableEq α] : DecidableEq (Except ε α) :=
  fun x y =>
    match x, y with
    | Except.ok a, Except.ok b =>
      if h : a = b then Decidable.isTrue (congrArg Except.ok h)
      else Decidable.isFalse (fun hc => h (Except.ok.inj hc))
    | Except.error a, Except.error b =>
      if h : a = b then Decidable.isTrue (congrArg Except.error h)
      else Decidable.isFalse (fun hc => h (Except.error.inj hc))
    | Except.ok _, Except.error _ => Decidable.isFalse (fun hc => Except.noConfusion hc)
    | Except.error _, Except.ok _ => Decidable.isFalse (fun hc => Except.noConfusion hc)

/-- A Python `Decimal` value: sign, coefficient digits as a natural
number, decimal exponent (CPython's internal triple). -/
structure Dec where
  neg : Bool
  coeff : Nat
  exp : Int
deriving DecidableEq, Repr

/-- The numeric value of a `Decimal` (the notion Python `==` compares). -/
def Dec.toRat (d : Dec) : ℚ :=
  (if d.neg then -1 else 1) * (d.coeff : ℚ) * (10 : ℚ) ^ d.exp

/-- ASCII decimal digit test. -/
def isDig (c : Char) : Bool := '0' ≤ c && c ≤ '9'

/-- Digits to a natural number, most significant first. -/
def natOfDigits (ds : List Char) : Nat :=
  ds.foldl (fun n c => n * 10 + (c.toNat - 48)) 0

/-- `Decimal(s)`: parse an optional sign, an integer part, an optional
fractional part (at least one digit overall), and an optional exponent;
`none` models `decimal.InvalidOperation`. -/
def parseDec (s : String) : Option Dec :=
  let cs := s.data
  let signAndRest : Bool × List Char :=
    match cs with
    | '+' :: rest => (false, rest)
    | '-' :: rest => (true, rest)
    | _ => (false, cs)
  let neg := signAndRest.1
  let cs1 := signAndRest.2
  let intds := cs1.takeWhile isDig
  let cs2 := cs1.drop intds.length
  let fracAndRest : List Char × List Char :=
    match cs2 with
    | '.' :: rest => (rest.takeWhile isDig, rest.drop (rest.takeWhile isDig).length)
    | _ => ([], cs2)
  let fracds := fracAndRest.1
  let cs3 := fracAndRest.2
  if intds.isEmpty && fracds.isEmpty then none
  else
    let coeff := natOfDigits (intds ++ fracds)
    match cs3 with
    | [] => some ⟨neg, coeff, -(fracds.length : Int)⟩
    | e :: rest =>
      if e == 'e' || e == 'E' then
        let esignAndRest : Bool × List Char :=
          match rest with
          | '+' :: r => (false, r)
          | '-' :: r => (true, r)
          | _ => (false, rest)
        let eds := esignAndRest.2.takeWhile isDig
        if eds.isEmpty || !(esignAndRest.2.drop eds.length).isEmpty then none
        else
          let ev : Int := if esignAndRest.1 then -(natOfDigits eds : Int) else (natOfDigits eds : Int)
          some ⟨neg, coeff, ev - (fracds.length : Int)⟩
      else none

/-- `str(decimal)`: CPython's to-scientific-string rendering. -/
def Dec.str (d : Dec) : String :=
  let ds := Nat.repr d.coeff
  let n : Int := (ds.length : Int)
  let leftdigits : Int := d.exp + n
  let plain : Bool := d.exp ≤ 0 && leftdigits > -6
  let dotplace : Int := if plain then leftdigits else 1
  let body : String :=
    if dotplace ≤ 0 then
      "0." ++ String.mk (List.replicate (-dotplace).toNat '0') ++ ds
    else if dotplace ≥ n then
      ds ++ String.mk (List.replicate (dotplace - n).toNat '0')
    else
      String.mk (ds.data.take dotplace.toNat) ++ "." ++ String.mk (ds.data.drop dotplace.toNat)
  let exppart : String :=
    if plain then ""
    else "E" ++ (if leftdigits - 1 ≥ 0 then "+" else "") ++ Int.repr (leftdigits - 1)
  (if d.neg then "-" else "") ++ body ++ exppart

/-- `charsHasPre a b`: `a` is an initial run of `b` (character lists). -/
def charsHasPre : List Char → List Char → Bool
  | [], _ => true
  | _ :: _, [] => false
  | a :: as, b :: bs => a == b && charsHasPre as bs

/-- `charsContains needle hay`: `needle` occurs contiguously in `hay`. -/
def charsContains (needle : List Char) : List Char → Bool
  | [] => needle.isEmpty
  | b :: bs => charsHasPre needle (b :: bs) || charsContains needle bs

/-- Python's `needle in hay` substring test on strings. -/
def strIn (needle hay : String) : Bool := charsContains needle.data hay.data

/-- Split a character list at every occurrence of `sep`, keeping empty
runs (Python `str.split` with an explicit separator). -/
def splitOnChar (sep : Char) : List Char → List (List Char)
  | [] => [[]]
  | c :: rest =>
    match splitOnChar sep rest with
    | [] => [[]]
    | g :: gs => if c == sep then [] :: g :: gs else (c :: g) :: gs

/-- Python's `s.split(sep)` for a one-character separator. -/
def pySplit (sep : Char) (s : String) : List String :=
  (splitOnChar sep s.data).map String.mk

/-- `YandexGeocoder.request_geocoder`: issue the query, then map the
status: 200 returns the parsed `response` substructure, 400 raises
`InvalidKey`, anything else raises `UnexpectedResponse` with the status
code and raw body.  The second component records the `geocode` query
strings sent to the remote capability. -/
def request_geocoder (net : Net) (api_key location : String) :
    Except PyErr GeocoderResponseT × List String :=
  let r := net api_key location
  ((if r.status_code = 200 then Except.ok r.response
    else if r.status_code = 400 then Except.error PyErr.invalidKey
    else Except.error (PyErr.unexpectedResponse
      ("status_code=" ++ Nat.repr r.status_code ++ ", body=" ++ r.content))),
   [location])

/-- `YandexGeocoder.find_coordinates` (body, with the key explicit): look
the address up, raise `NothingFound` on an empty `featureMember`,
otherwise split the first feature's `pos` on a single space, unpack into
exactly two tokens (`ValueError` otherwise) and parse each with
`Decimal` (`InvalidOperation` on failure), returning
(longitude, latitude). -/
def find_coordinates_core (net : Net) (api_key address : String) :
    Except PyErr (Dec × Dec) × List String :=
  let rq := request_geocoder net api_key address
  ((match rq.1 with
    | Except.error e => Except.error e
    | Except.ok resp =>
      match resp.GeoObjectCollection.featureMember with
      | [] => Except.error (PyErr.nothingFound ("Nothing found for \"" ++ address ++ "\""))
      | f :: _ =>
        match pySplit ' ' f.GeoObject.Point.pos with
        | [t1, t2] =>
          match parseDec t1, parseDec t2 with
          | some longitude, some latitude => Except.ok (longitude, latitude)
          | _, _ => Except.error PyErr.invalidOperation
        | _ => Except.error PyErr.valueError),
   rq.2)

/-- `YandexGeocoder.find_address` (body, with the key explicit): format
the query as `str(longitude) + ',' + str(latitude)`, look it up, raise
`NothingFound` (message formatted with a comma and a space) on an empty
`featureMember`, otherwise return the first feature's
`GeocoderMetaData.text`. -/
def find_address_core (net : Net) (api_key : String) (longitude latitude : Dec) :
    Except PyErr String × List String :=
  let coordinates := longitude.str ++ "," ++ latitude.str
  let rq := request_geocoder net api_key coordinates
  ((match rq.1 with
    | Except.error e => Except.error e
    | Except.ok resp =>
      match resp.GeoObjectCollection.featureMember with
      | [] =>
        Except.error (PyErr.nothingFound
          ("Nothing found for \"" ++ longitude.str ++ ", " ++ latitude.str ++ "\""))
      | f :: _ => Except.ok f.GeoObject.metaDataProperty.GeocoderMetaData.text),
   rq.2)

/-- The service state: the credential and the cached reference
coordinate resolved at construction. -/
structure YandexGeocoder where
  api_key : String
  long_moscow_ring_road : Dec
  lat_moscow_ring_road : Dec
deriving DecidableEq, Repr

/-- `YandexGeocoder.__init__`: store the key and immediately resolve the
hardcoded reference address, failing (no instance) if that lookup
fails. -/
def YandexGeocoder.init (net : Net) (api_key : String) :
    Except PyErr YandexGeocoder × List String :=
  let fc := find_coordinates_core net api_key "Moscow Ring Road"
  ((match fc.1 with
    | Except.ok (lon, lat) => Except.ok ⟨api_key, lon, lat⟩
    | Except.error e => Except.error e),
   fc.2)

/-- Method wrapper for `find_coordinates`: result, post-state, queries. -/
def YandexGeocoder.find_coordinates (self : YandexGeocoder) (net : Net) (address : String) :
    Except PyErr (Dec × Dec) × YandexGeocoder × List String :=
  let r := find_coordinates_core net self.api_key address
  (r.1, self, r.2)

/-- Method wrapper for `find_address`: result, post-state, queries. -/
def YandexGeocoder.find_address (self : YandexGeocoder) (net : Net) (longitude latitude : Dec) :
    Except PyErr String × YandexGeocoder × List String :=
  let r := find_address_core net self.api_key longitude latitude
  (r.1, self, r.2)

/-- `math.radians`. -/
noncomputable def radians (x : ℝ) : ℝ := x * Real.pi / 180

/-- The float value of a `Decimal` fed to the math functions. -/
noncomputable def decReal (d : Dec) : ℝ := (d.toRat : ℝ)

/-- `math.atan2 y x`. -/
noncomputable def atan2 (y x : ℝ) : ℝ :=
  if 0 < x then Real.arctan (y / x)
  else if x < 0 then
    (if 0 ≤ y then Real.arctan (y / x) + Real.pi else Real.arctan (y / x) - Real.pi)
  else
    (if 0 < y then Real.pi / 2 else if y < 0 then -(Real.pi / 2) else 0)

/-- `YandexGeocoder.calculate_distance`: with no address, `"MKAD" in None`
raises `TypeError`; otherwise resolve the address to a coordinate, the
coordinate back to a canonical address, return 0 if that text contains
"MKAD", else the haversine distance from the cached reference point with
R = 6373.0. -/
noncomputable def YandexGeocoder.calculate_distance (self : YandexGeocoder) (net : Net)
    (address : Option String) : Except PyErr ℝ × YandexGeocoder × List String :=
  match address with
  | none => (Except.error PyErr.typeError, self, [])
  | some addr =>
    let fc := find_coordinates_core net self.api_key addr
    match fc.1 with
    | Except.error e => (Except.error e, self, fc.2)
    | Except.ok (longitude, latitude) =>
      let fa := find_address_core net self.api_key longitude latitude
      match fa.1 with
      | Except.error e => (Except.error e, self, fc.2 ++ fa.2)
      | Except.ok addr2 =>
        if strIn "MKAD" addr2 then (Except.ok 0, self, fc.2 ++ fa.2)
        else
          let R : ℝ := 6373.0
          let lat1 := radians (decReal self.lat_moscow_ring_road)
          let lon1 := radians (decReal self.long_moscow_ring_road)
          let lat2 := radians (decReal latitude)
          let lon2 := radians (decReal longitude)
          let dlon := lon2 - lon1
          let dlat := lat2 - lat1
          let a := Real.sin (dlat / 2) ^ 2 +
            Real.cos lat1 * Real.cos lat2 * Real.sin (dlon / 2) ^ 2
          let c := 2 * atan2 (Real.sqrt a) (Real.sqrt (1 - a))
          (Except.ok (R * c), self, fc.2 ++ fa.2)

/-- Whether a response's first feature (if any) carries a `pos` field that
splits into exactly two `Decimal`-parseable tokens; trivially true for
non-200 responses, whose body is never inspected for features. -/
def posWF (r : ApiResponse) : Bool :=
  r.status_code != 200 ||
  (match r.response.GeoObjectCollection.featureMember with
   | [] => true
   | f :: _ =>
     match pySplit ' ' f.GeoObject.Point.pos with
     | [t1, t2] => (parseDec t1).isSome && (parseDec t2).isSome
     | _ => false)

/-- Test fixture: one feature with the given `pos` and `text`. -/
def featureOf (pos text : String) : FeatureMemberT := ⟨⟨⟨pos⟩, ⟨⟨text⟩⟩⟩⟩

/-- Test fixture: a 200 response with the given features. -/
def okResp (features : List FeatureMemberT) : ApiResponse := ⟨200, "", ⟨⟨features⟩⟩⟩

/-- Test fixture: a remote capability answering every query alike. -/
def constNet (r : ApiResponse) : Net := fun _ _ => r

/-- Test fixture: resolves everything to Red Square's coordinates. -/
def netRed : Net := constNet (okResp [featureOf "37.6173 55.7558" "Moscow, Russia"])

/-- Test fixture: canonical text contains the ring-road marker. -/
def netMkad : Net :=
  constNet (okResp [featureOf "37.0 55.0" "Russia, Moscow, MKAD, 5th kilometre"])

/-- Test fixture: canonical text without the ring-road marker. -/
def netPlain : Net :=
  constNet (okResp [featureOf "37.0 55.0" "Russia, Moscow, Tverskaya Street"])

/-- Test fixture: 200 response with zero features. -/
def netEmpty : Net := constNet (okResp [])

/-- Test fixture: the key is rejected. -/
def net400 : Net := constNet ⟨400, "denied", ⟨⟨[]⟩⟩⟩

/-- Test fixture: an unexpected server error. -/
def net500 : Net := constNet ⟨500, "oops", ⟨⟨[]⟩⟩⟩

/-- Test fixture: a malformed `pos` field with three tokens. -/
def netBadPos : Net := constNet (okResp [featureOf "1 2 3" "somewhere"])

/-- Test fixture: a service whose reference point is (37.0, 55.0). -/
def gRef : YandexGeocoder := ⟨"key", ⟨false, 370, -1⟩, ⟨false, 550, -1⟩⟩

theorem request_geocoder_queries (net : Net) (key loc : String) :
    (request_geocoder net key loc).2 = [loc] := rfl

theorem find_coordinates_core_queries (net : Net) (key addr : String) :
    (find_coordinates_core net key addr).2 = [addr] := rfl

theorem find_address_core_queries (net : Net) (key : String) (lon lat : Dec) :
    (find_address_core net key lon lat).2 = [lon.str ++ "," ++ lat.str] := rfl

theorem request_geocoder_200 (net : Net) (key loc : String)
    (h : (net key loc).status_code = 200) :
    (request_geocoder net key loc).1 = Except.ok (net key loc).response := by
  unfold request_geocoder
  simp [h]

theorem request_geocoder_400 (net : Net) (key loc : String)
    (h : (net key loc).status_code = 400) :
    (request_geocoder net key loc).1 = Except.error PyErr.invalidKey := by
  unfold request_geocoder
  simp [h]

theorem request_geocoder_other (net : Net) (key loc : String)
    (h1 : (net key loc).status_code ≠ 200) (h2 : (net key loc).status_code ≠ 400) :
    (request_geocoder net key loc).1 = Except.error (PyErr.unexpectedResponse
      ("status_code=" ++ Nat.repr (net key loc).status_code ++ ", body=" ++
        (net key loc).content)) := by
  unfold request_geocoder
  simp [h1, h2]

example : parseDec "37.6173" = some ⟨false, 376173, -4⟩ := by decide
example : parseDec "abc" = none := by decide
example : Dec.str ⟨false, 376173, -4⟩ = "37.6173" := by decide
example : Dec.str ⟨false, 370, -1⟩ = "37.0" := by decide
example : Dec.str ⟨false, 50, -2⟩ = "0.50" := by decide
example : strIn "MKAD" "Russia, Moscow, MKAD, 5th km" = true := by decide
example : strIn "MKAD" "Moscow, Red Square" = false := by decide

/-- C2: `request_geocoder` maps the HTTP status of the single remote call
exhaustively: 200 returns the parsed body's `response` substructure; 400
fails with `InvalidKey` regardless of body content; any other status fails
with `UnexpectedResponse` carrying the exact status code and the raw body.
All operations route through it, so a 400 makes `find_coordinates` and
`find_address` fail with `InvalidKey` as well. -/
theorem C2_request_geocoder_status_mapping (net : Net) (key loc : String) :
    ((net key loc).status_code = 200 →
      request_geocoder net key loc = (Except.ok (net key loc).response, [loc])) ∧
    ((net key loc).status_code = 400 →
      request_geocoder net key loc = (Except.error PyErr.invalidKey, [loc])) ∧
    ((net key loc).status_code ≠ 200 → (net key loc).status_code ≠ 400 →
      request_geocoder net key loc = (Except.error (PyErr.unexpectedResponse
        ("status_code=" ++ Nat.repr (net key loc).status_code ++ ", body=" ++
          (net key loc).content)), [loc])) ∧
    ((net key loc).status_code = 400 →
      (find_coordinates_core net key loc).1 = Except.error PyErr.invalidKey) ∧
    (∀ lon lat : Dec, (net key (lon.str ++ "," ++ lat.str)).status_code = 400 →
      (find_address_core net key lon lat).1 = Except.error PyErr.invalidKey) := by
  refine ⟨?_, ?_, ?_, ?_, ?_⟩
  · intro h; unfold request_geocoder; simp [h]
  · intro h; unfold request_geocoder; simp [h]
  · intro h1 h2; unfold request_geocoder; simp [h1, h2]
  · intro h
    unfold find_coordinates_core
    dsimp only
    rw [request_geocoder_400 net key loc h]
  · intro lon lat h
    unfold find_address_core
    dsimp only
    rw [request_geocoder_400 net key (lon.str ++ "," ++ lat.str) h]

/-- Witness for C2 at concrete responses with statuses 200, 400 and 500. -/
theorem C2_request_geocoder_status_mapping_witness :
    (netRed "k" "x").status_code = 200 ∧
    request_geocoder netRed "k" "x" = (Except.ok (netRed "k" "x").response, ["x"]) ∧
    (net400 "k" "x").status_code = 400 ∧
    request_geocoder net400 "k" "x" = (Except.error PyErr.invalidKey, ["x"]) ∧
    (net500 "k" "x").status_code = 500 ∧
    request_geocoder net500 "k" "x" =
      (Except.error (PyErr.unexpectedResponse "status_code=500, body=oops"), ["x"]) ∧
    (find_coordinates_core net400 "k" "x").1 = Except.error PyErr.invalidKey := by
  refine ⟨by decide, (C2_request_geocoder_status_mapping netRed "k" "x").1 (by decide),
    by decide, (C2_request_geocoder_status_mapping net400 "k" "x").2.1 (by decide),
    by decide, ?_, (C2_request_geocoder_status_mapping net400 "k" "x").2.2.2.1 (by decide)⟩
  exact (C2_request_geocoder_status_mapping net500 "k" "x").2.2.1
    (by decide) (by decide)

/-- C3 counterexample: on a 200 response with zero features,
`find_address` issues the comma-only query string "37.6173,55.7558" but
its `NothingFound` message reads `Nothing found for "37.6173, 55.7558"`
(comma and space), which does not contain the issued query string. -/
theorem C3_counterexample :
    (find_address_core netEmpty "k" ⟨false, 376173, -4⟩ ⟨false, 557558, -4⟩).2 =
      ["37.6173,55.7558"] ∧
    (find_address_core netEmpty "k" ⟨false, 376173, -4⟩ ⟨false, 557558, -4⟩).1 =
      Except.error (PyErr.nothingFound "Nothing found for \"37.6173, 55.7558\"") ∧
    strIn "37.6173,55.7558" "Nothing found for \"37.6173, 55.7558\"" = false := by
  refine ⟨by decide, by decide, by decide⟩

/-- C3 (amended): on a 200 response with zero features,
`find_coordinates` fails with `NothingFound` whose message contains the
exact queried address string, and `find_address` fails with
`NothingFound` whose message carries the pair formatted as
"longitude, latitude" (comma and space), which differs from the
comma-only query string that was issued. -/
theorem C3_nothing_found_messages (net : Net) (key addr : String) (lon lat : Dec)
    (ha : (net key addr).status_code = 200)
    (ha2 : (net key addr).response.GeoObjectCollection.featureMember = [])
    (hb : (net key (lon.str ++ "," ++ lat.str)).status_code = 200)
    (hb2 : (net key (lon.str ++ "," ++ lat.str)).response.GeoObjectCollection.featureMember
      = []) :
    (find_coordinates_core net key addr).1 =
      Except.error (PyErr.nothingFound ("Nothing found for \"" ++ addr ++ "\"")) ∧
    (find_address_core net key lon lat).1 =
      Except.error (PyErr.nothingFound
        ("Nothing found for \"" ++ lon.str ++ ", " ++ lat.str ++ "\"")) := by
  constructor
  · unfold find_coordinates_core
    dsimp only
    rw [request_geocoder_200 net key addr ha]
    simp [ha2]
  · unfold find_address_core
    dsimp only
    rw [request_geocoder_200 net key (lon.str ++ "," ++ lat.str) hb]
    simp [hb2]

/-- Witness for the amended C3 at a concrete empty 200 response. -/
theorem C3_nothing_found_messages_witness :
    (netEmpty "k" "Nowhere Street").status_code = 200 ∧
    (find_coordinates_core netEmpty "k" "Nowhere Street").1 =
      Except.error (PyErr.nothingFound "Nothing found for \"Nowhere Street\"") ∧
    (find_address_core netEmpty "k" ⟨false, 370, -1⟩ ⟨false, 550, -1⟩).1 =
      Except.error (PyErr.nothingFound "Nothing found for \"37.0, 55.0\"") := by
  have h := C3_nothing_found_messages netEmpty "k" "Nowhere Street"
    ⟨false, 370, -1⟩ ⟨false, 550, -1⟩ (by decide) (by decide) (by decide) (by decide)
  exact ⟨by decide, h.1, h.2⟩

/-- C6: on a 200 response with at least one feature, `find_coordinates`
splits the first feature's `pos` string on a single space into two tokens
and returns `(Decimal(first), Decimal(second))` — first token longitude,
second latitude. -/
theorem C6_pos_parsing (net : Net) (key addr t1 t2 : String) (d1 d2 : Dec)
    (f : FeatureMemberT) (fs : List FeatureMemberT)
    (h200 : (net key addr).status_code = 200)
    (hfm : (net key addr).response.GeoObjectCollection.featureMember = f :: fs)
    (hsplit : pySplit ' ' f.GeoObject.Point.pos = [t1, t2])
    (h1 : parseDec t1 = some d1) (h2 : parseDec t2 = some d2) :
    find_coordinates_core net key addr = (Except.ok (d1, d2), [addr]) := by
  unfold find_coordinates_core
  dsimp only
  rw [request_geocoder_200 net key addr h200]
  simp [hfm, hsplit, h1, h2, request_geocoder_queries]

/-- Witness for C6: the spec's example — pos "37.6173 55.7558" for query
"Red Square" yields (Decimal "37.6173", Decimal "55.7558"). -/
theorem C6_pos_parsing_witness :
    parseDec "37.6173" = some ⟨false, 376173, -4⟩ ∧
    parseDec "55.7558" = some ⟨false, 557558, -4⟩ ∧
    find_coordinates_core netRed "k" "Red Square" =
      (Except.ok (⟨false, 376173, -4⟩, ⟨false, 557558, -4⟩), ["Red Square"]) := by
  refine ⟨by decide, by decide, ?_⟩
  exact C6_pos_parsing netRed "k" "Red Square" "37.6173" "55.7558" _ _
    (featureOf "37.6173 55.7558" "Moscow, Russia") [] (by decide) (by decide)
    (by decide) (by decide) (by decide)

/-- C7: `find_address` issues exactly one lookup whose query string is
`str(longitude) ++ "," ++ str(latitude)` (comma-separated, no space), and
on a non-empty result returns the first feature's `GeocoderMetaData.text`
unchanged. -/
theorem C7_query_format_and_text (net : Net) (key : String) (lon lat : Dec) :
    (find_address_core net key lon lat).2 = [lon.str ++ "," ++ lat.str] ∧
    (∀ f fs, (net key (lon.str ++ "," ++ lat.str)).status_code = 200 →
      (net key (lon.str ++ "," ++ lat.str)).response.GeoObjectCollection.featureMember
        = f :: fs →
      (find_address_core net key lon lat).1 =
        Except.ok f.GeoObject.metaDataProperty.GeocoderMetaData.text) := by
  refine ⟨rfl, ?_⟩
  intro f fs h200 hfm
  unfold find_address_core
  dsimp only
  rw [request_geocoder_200 net key (lon.str ++ "," ++ lat.str) h200]
  simp [hfm]

/-- Witness for C7 at a concrete coordinate and response. -/
theorem C7_query_format_and_text_witness :
    (find_address_core netRed "k" ⟨false, 376173, -4⟩ ⟨false, 557558, -4⟩).2 =
      ["37.6173,55.7558"] ∧
    (find_address_core netRed "k" ⟨false, 376173, -4⟩ ⟨false, 557558, -4⟩).1 =
      Except.ok "Moscow, Russia" := by
  refine ⟨(C7_query_format_and_text netRed "k" _ _).1, ?_⟩
  exact (C7_query_format_and_text netRed "k" ⟨false, 376173, -4⟩ ⟨false, 557558, -4⟩).2
    (featureOf "37.6173 55.7558" "Moscow, Russia") [] (by decide) (by decide)

/-- C8: construction performs the coordinate lookup for the hardcoded
reference address "Moscow Ring Road" and fails with `InvalidKey` on a 400
response, or with `NothingFound` if the reference address resolves to
zero features; in both cases no service instance is produced. -/
theorem C8_construction (net : Net) (key : String) :
    (YandexGeocoder.init net key).2 = ["Moscow Ring Road"] ∧
    ((net key "Moscow Ring Road").status_code = 400 →
      (YandexGeocoder.init net key).1 = Except.error PyErr.invalidKey) ∧
    ((net key "Moscow Ring Road").status_code = 200 →
      (net key "Moscow Ring Road").response.GeoObjectCollection.featureMember = [] →
      (YandexGeocoder.init net key).1 =
        Except.error (PyErr.nothingFound "Nothing found for \"Moscow Ring Road\"")) := by
  refine ⟨rfl, ?_, ?_⟩
  · intro h
    unfold YandexGeocoder.init find_coordinates_core
    dsimp only
    rw [request_geocoder_400 net key "Moscow Ring Road" h]
  · intro h200 hfm
    unfold YandexGeocoder.init find_coordinates_core
    dsimp only
    rw [request_geocoder_200 net key "Moscow Ring Road" h200]
    simp [hfm]

/-- Witness for C8 on a rejected key and an unresolvable reference. -/
theorem C8_construction_witness :
    (net400 "k" "Moscow Ring Road").status_code = 400 ∧
    (YandexGeocoder.init net400 "k").1 = Except.error PyErr.invalidKey ∧
    (YandexGeocoder.init netEmpty "k").1 =
      Except.error (PyErr.nothingFound "Nothing found for \"Moscow Ring Road\"") := by
  refine ⟨by decide, (C8_construction net400 "k").2.1 (by decide), ?_⟩
  exact (C8_construction netEmpty "k").2.2 (by decide) (by decide)

/-- C9: the reference point is resolved by exactly one remote lookup, at
construction (the construction trace is the single reference-address
query), and every operation returns the service state — `api_key`,
`long_moscow_ring_road`, `lat_moscow_ring_road` — unchanged. -/
theorem C9_reference_once_state_immutable (net : Net) (g : YandexGeocoder)
    (key addr : String) (lon lat : Dec) (oaddr : Option String) :
    (YandexGeocoder.init net key).2 = ["Moscow Ring Road"] ∧
    (g.find_coordinates net addr).2.1 = g ∧
    (g.find_address net lon lat).2.1 = g ∧
    (g.calculate_distance net oaddr).2.1 = g := by
  refine ⟨rfl, rfl, rfl, ?_⟩
  unfold YandexGeocoder.calculate_distance
  cases oaddr with
  | none => rfl
  | some addr2 =>
    dsimp only
    cases hfc : (find_coordinates_core net g.api_key addr2).1 with
    | error e => rfl
    | ok p =>
      rcases p with ⟨plon, plat⟩
      dsimp only
      cases hfa : (find_address_core net g.api_key plon plat).1 with
      | error e => rfl
      | ok addr3 =>
        dsimp only
        by_cases hm : strIn "MKAD" addr3
        · simp [hm]
        · simp [hm]

/-- C1: whenever the canonical address text obtained by the round trip
(`find_coordinates` then `find_address`) contains "MKAD",
`calculate_distance` returns exactly 0, regardless of the numeric
coordinates that were resolved (the haversine branch is not taken). -/
theorem C1_mkad_distance_zero (net : Net) (g : YandexGeocoder) (addr text : String)
    (lon lat : Dec)
    (h1 : (find_coordinates_core net g.api_key addr).1 = Except.ok (lon, lat))
    (h2 : (find_address_core net g.api_key lon lat).1 = Except.ok text)
    (h3 : strIn "MKAD" text = true) :
    g.calculate_distance net (some addr) =
      (Except.ok (0 : ℝ), g, [addr, lon.str ++ "," ++ lat.str]) := by
  unfold YandexGeocoder.calculate_distance
  dsimp only
  rw [h1]
  dsimp only
  rw [h2]
  simp [h3, find_coordinates_core_queries, find_address_core_queries]

/-- Witness for C1: a canonical text containing "MKAD" gives distance 0. -/
theorem C1_mkad_distance_zero_witness :
    strIn "MKAD" "Russia, Moscow, MKAD, 5th kilometre" = true ∧
    gRef.calculate_distance netMkad (some "Red Square") =
      (Except.ok (0 : ℝ), gRef, ["Red Square", "37.0,55.0"]) := by
  refine ⟨by decide, ?_⟩
  exact C1_mkad_distance_zero netMkad gRef "Red Square"
    "Russia, Moscow, MKAD, 5th kilometre" ⟨false, 370, -1⟩ ⟨false, 550, -1⟩
    (by decide) (by decide) (by decide)

/-- C5: when the canonical round-tripped text does not contain "MKAD",
`calculate_distance` resolves the address, resolves the coordinate back
(the two queries issued, in order, are the address and the
"longitude,latitude" string), and returns the haversine great-circle
distance from the reference point with Earth radius 6373.0:
a = sin²(dlat/2) + cos lat1 · cos lat2 · sin²(dlon/2),
c = 2·atan2(√a, √(1−a)), distance = R·c, in radians. -/
theorem C5_haversine_path (net : Net) (g : YandexGeocoder) (addr text : String)
    (lon lat : Dec)
    (h1 : (find_coordinates_core net g.api_key addr).1 = Except.ok (lon, lat))
    (h2 : (find_address_core net g.api_key lon lat).1 = Except.ok text)
    (h3 : strIn "MKAD" text = false) :
    g.calculate_distance net (some addr) =
      (Except.ok
        (let lat1 := radians (decReal g.lat_moscow_ring_road)
         let lon1 := radians (decReal g.long_moscow_ring_road)
         let lat2 := radians (decReal lat)
         let lon2 := radians (decReal lon)
         let dlon := lon2 - lon1
         let dlat := lat2 - lat1
         let a := Real.sin (dlat / 2) ^ 2 +
           Real.cos lat1 * Real.cos lat2 * Real.sin (dlon / 2) ^ 2
         let c := 2 * atan2 (Real.sqrt a) (Real.sqrt (1 - a))
         6373.0 * c),
       g, [addr, lon.str ++ "," ++ lat.str]) := by
  unfold YandexGeocoder.calculate_distance
  dsimp only
  rw [h1]
  dsimp only
  rw [h2]
  simp [h3, find_coordinates_core_queries, find_address_core_queries]

/-- Witness for C5 at a canonical text without the marker. -/
theorem C5_haversine_path_witness :
    strIn "MKAD" "Russia, Moscow, Tverskaya Street" = false ∧
    gRef.calculate_distance netPlain (some "Tverskaya") =
      (Except.ok
        (let lat1 := radians (decReal gRef.lat_moscow_ring_road)
         let lon1 := radians (decReal gRef.long_moscow_ring_road)
         let lat2 := radians (decReal (⟨false, 550, -1⟩ : Dec))
         let lon2 := radians (decReal (⟨false, 370, -1⟩ : Dec))
         let dlon := lon2 - lon1
         let dlat := lat2 - lat1
         let a := Real.sin (dlat / 2) ^ 2 +
           Real.cos lat1 * Real.cos lat2 * Real.sin (dlon / 2) ^ 2
         let c := 2 * atan2 (Real.sqrt a) (Real.sqrt (1 - a))
         6373.0 * c),
       gRef, ["Tverskaya", "37.0,55.0"]) := by
  refine ⟨by decide, ?_⟩
  exact C5_haversine_path netPlain gRef "Tverskaya"
    "Russia, Moscow, Tverskaya Street" ⟨false, 370, -1⟩ ⟨false, 550, -1⟩
    (by decide) (by decide) (by decide)

/-- C10: if the resolved coordinate has the same numeric value as the
reference point and the canonical text does not contain "MKAD", the
haversine path returns exactly 0 (dlat = dlon = 0 gives a = 0, c = 0). -/
theorem C10_self_distance_zero (net : Net) (g : YandexGeocoder) (addr text : String)
    (lon lat : Dec)
    (h1 : (find_coordinates_core net g.api_key addr).1 = Except.ok (lon, lat))
    (h2 : (find_address_core net g.api_key lon lat).1 = Except.ok text)
    (h3 : strIn "MKAD" text = false)
    (h4 : lat.toRat = g.lat_moscow_ring_road.toRat)
    (h5 : lon.toRat = g.long_moscow_ring_road.toRat) :
    (g.calculate_distance net (some addr)).1 = Except.ok (0 : ℝ) := by
  have hlat : decReal lat = decReal g.lat_moscow_ring_road := by
    unfold decReal; rw [h4]
  have hlon : decReal lon = decReal g.long_moscow_ring_road := by
    unfold decReal; rw [h5]
  unfold YandexGeocoder.calculate_distance
  dsimp only
  rw [h1]
  dsimp only
  rw [h2]
  simp only [h3, Bool.false_eq_true, if_false]
  rw [hlat, hlon]
  simp [atan2, sub_self, zero_div, Real.sin_zero, zero_pow, mul_zero, add_zero,
    zero_add, Real.sqrt_zero, sub_zero, Real.sqrt_one, zero_lt_one, div_one,
    Real.arctan_zero]

/-- Witness for C10: the resolved coordinate coincides with the
reference point and the formula path returns 0. -/
theorem C10_self_distance_zero_witness :
    Dec.toRat ⟨false, 550, -1⟩ = gRef.lat_moscow_ring_road.toRat ∧
    strIn "MKAD" "Russia, Moscow, Tverskaya Street" = false ∧
    (gRef.calculate_distance netPlain (some "Tverskaya")).1 = Except.ok (0 : ℝ) := by
  refine ⟨rfl, by decide, ?_⟩
  exact C10_self_distance_zero netPlain gRef "Tverskaya"
    "Russia, Moscow, Tverskaya Street" ⟨false, 370, -1⟩ ⟨false, 550, -1⟩
    (by decide) (by decide) (by decide) rfl rfl

theorem find_coordinates_core_okOrNamed (net : Net) (key addr : String)
    (hwf : posWF (net key addr) = true) :
    okOrNamed (find_coordinates_core net key addr).1 = true := by
  unfold find_coordinates_core
  dsimp only
  by_cases h200 : (net key addr).status_code = 200
  · rw [request_geocoder_200 net key addr h200]
    unfold posWF at hwf
    rw [h200] at hwf
    simp only [bne_self_eq_false, Bool.false_or] at hwf
    cases hfm : (net key addr).response.GeoObjectCollection.featureMember with
    | nil => simp [hfm, okOrNamed, PyErr.isNamed]
    | cons f fs =>
      simp only [hfm] at hwf
      cases hsp : pySplit ' ' f.GeoObject.Point.pos with
      | nil => simp [hsp] at hwf
      | cons t1 ts =>
        cases ts with
        | nil => simp [hsp] at hwf
        | cons t2 ts2 =>
          cases ts2 with
          | nil =>
            simp only [hsp, Bool.and_eq_true, Option.isSome_iff_exists] at hwf
            obtain ⟨⟨d1, hd1⟩, ⟨d2, hd2⟩⟩ := hwf
            simp [hfm, hsp, hd1, hd2, okOrNamed]
          | cons t3 ts3 => simp [hsp] at hwf
  · by_cases h400 : (net key addr).status_code = 400
    · rw [request_geocoder_400 net key addr h400]; rfl
    · rw [request_geocoder_other net key addr h200 h400]; rfl

theorem find_address_core_okOrNamed (net : Net) (key : String) (lon lat : Dec) :
    okOrNamed (find_address_core net key lon lat).1 = true := by
  unfold find_address_core
  dsimp only
  by_cases h200 : (net key (lon.str ++ "," ++ lat.str)).status_code = 200
  · rw [request_geocoder_200 net key (lon.str ++ "," ++ lat.str) h200]
    cases hfm :
        (net key (lon.str ++ "," ++ lat.str)).response.GeoObjectCollection.featureMember with
    | nil => simp [hfm, okOrNamed, PyErr.isNamed]
    | cons f fs => simp [hfm, okOrNamed, PyErr.isNamed]
  · by_cases h400 : (net key (lon.str ++ "," ++ lat.str)).status_code = 400
    · rw [request_geocoder_400 net key (lon.str ++ "," ++ lat.str) h400]; rfl
    · rw [request_geocoder_other net key (lon.str ++ "," ++ lat.str) h200 h400]; rfl

theorem calculate_distance_okOrNamed (net : Net) (g : YandexGeocoder) (addr : String)
    (hwf : ∀ loc, posWF (net g.api_key loc) = true) :
    okOrNamed (g.calculate_distance net (some addr)).1 = true := by
  unfold YandexGeocoder.calculate_distance
  dsimp only
  cases hfc : (find_coordinates_core net g.api_key addr).1 with
  | error e =>
    have h := find_coordinates_core_okOrNamed net g.api_key addr (hwf addr)
    rw [hfc] at h
    simpa using h
  | ok p =>
    rcases p with ⟨lon, lat⟩
    dsimp only
    cases hfa : (find_address_core net g.api_key lon lat).1 with
    | error e =>
      have h := find_address_core_okOrNamed net g.api_key lon lat
      rw [hfa] at h
      simpa using h
    | ok text =>
      by_cases hm : strIn "MKAD" text
      · simp [hm, okOrNamed]
      · simp [hm, okOrNamed]

/-- C4 counterexample: a 200 response whose first feature's `pos` is
"1 2 3" makes `find_coordinates` fail with a bare `ValueError`
(tuple-unpacking), which is none of the three named error kinds. -/
theorem C4_counterexample :
    (gRef.find_coordinates netBadPos "somewhere").1 = Except.error PyErr.valueError ∧
    PyErr.isNamed PyErr.valueError = false := ⟨by decide, by decide⟩

/-- C4 (amended): for every input and every remote response in which each
200 body's first feature `pos` splits on a single space into exactly two
`Decimal`-parseable tokens, and in which `calculate_distance` is given an
address, each public operation either fully succeeds or fails with one of
the three named errors (`InvalidKey`, `NothingFound`,
`UnexpectedResponse`). -/
theorem C4_named_errors_or_success (net : Net) (g : YandexGeocoder) (addr : String)
    (lon lat : Dec)
    (hwf : ∀ loc, posWF (net g.api_key loc) = true) :
    okOrNamed (g.find_coordinates net addr).1 = true ∧
    okOrNamed (g.find_address net lon lat).1 = true ∧
    okOrNamed (g.calculate_distance net (some addr)).1 = true := by
  refine ⟨?_, ?_, ?_⟩
  · exact find_coordinates_core_okOrNamed net g.api_key addr (hwf addr)
  · exact find_address_core_okOrNamed net g.api_key lon lat
  · exact calculate_distance_okOrNamed net g addr hwf

/-- Witness for the amended C4 on a well-formed remote capability. -/
theorem C4_named_errors_or_success_witness :
    posWF (netRed "key" "x") = true ∧
    okOrNamed (gRef.find_coordinates netRed "x").1 = true ∧
    okOrNamed (gRef.find_address netRed ⟨false, 370, -1⟩ ⟨false, 550, -1⟩).1 = true ∧
    okOrNamed (gRef.calculate_distance netRed (some "x")).1 = true := by
  have hposRed : posWF (okResp [featureOf "37.6173 55.7558" "Moscow, Russia"]) = true := by
    decide
  have h := C4_named_errors_or_success netRed gRef "x" ⟨false, 370, -1⟩ ⟨false, 550, -1⟩
    (fun _ => hposRed)
  exact ⟨by decide, h.1, h.2.1, h.2.2⟩
